import Mathlib

/-!
# Verification of the otterdog entity model and reconciliation engine

A shallow embedding of the model layer of otterdog (`otterdog/models/__init__.py`,
`organization_settings.py`, `organization_webhook.py`, `repository.py`) in Lean 4,
together with theorems establishing properties of the diff engine, the live-patch
model, the validation engine and the document factories.

Field values are modelled as JSON-like values; the `UNSET` sentinel of
`otterdog/utils.py` becomes a dedicated constructor of the `Value` wrapper, so
that "not specified" is a third state distinct from `null` and from every
concrete value.
-/

/-- JSON-like values as they appear in model documents and provider payloads. -/
inductive JsonVal where
  | null : JsonVal
  | str : String → JsonVal
  | bool : Bool → JsonVal
  | num : Int → JsonVal
  | arr : List JsonVal → JsonVal
  | obj : List (String × JsonVal) → JsonVal
deriving Repr

mutual

/-- Structural equality of JSON values (the `==` used by Python on dict/list/scalars). -/
def JsonVal.beq : JsonVal → JsonVal → Bool
  | JsonVal.null, JsonVal.null => true
  | JsonVal.str a, JsonVal.str b => a == b
  | JsonVal.bool a, JsonVal.bool b => a == b
  | JsonVal.num a, JsonVal.num b => a == b
  | JsonVal.arr a, JsonVal.arr b => JsonVal.beqList a b
  | JsonVal.obj a, JsonVal.obj b => JsonVal.beqObj a b
  | _, _ => false

/-- Elementwise equality of JSON arrays. -/
def JsonVal.beqList : List JsonVal → List JsonVal → Bool
  | [], [] => true
  | a :: as0, b :: bs0 => JsonVal.beq a b && JsonVal.beqList as0 bs0
  | _, _ => false

/-- Elementwise equality of JSON objects (ordered, as Python dict equality is keyed;
order-insensitivity is handled one level up, in `is_different_ignoring_order`). -/
def JsonVal.beqObj : List (String × JsonVal) → List (String × JsonVal) → Bool
  | [], [] => true
  | (k1, v1) :: as0, (k2, v2) :: bs0 => k1 == k2 && JsonVal.beq v1 v2 && JsonVal.beqObj as0 bs0
  | _, _ => false

end

/-- A field value: either the `UNSET` sentinel from `otterdog/utils.py`
(`dataclasses` fields that were never specified) or a concrete JSON value
(`JsonVal.null` models Python `None`). -/
inductive Value where
  | unset : Value
  | val : JsonVal → Value
deriving Repr

/-- Modelled from the spec: `is_unset` of `otterdog/utils.py` (the file is not
part of the sources); the unset sentinel is "a third state distinct from
null/empty, meaning not specified in this document". -/
def is_unset : Value → Bool
  | Value.unset => true
  | Value.val _ => false

/-- Modelled from the spec: `is_set_and_valid` of `otterdog/utils.py` — the value
is not the unset sentinel and not null. -/
def is_set_and_valid : Value → Bool
  | Value.unset => false
  | Value.val JsonVal.null => false
  | Value.val _ => true

/-- Non-emptiness of a JSON value as used by `is_set_and_present`: strings and
arrays must be non-empty, anything else that is non-null counts as present. -/
def JsonVal.isPresent : JsonVal → Bool
  | JsonVal.null => false
  | JsonVal.str s => s != ""
  | JsonVal.arr l => !l.isEmpty
  | _ => true

/-- Modelled from the spec: `is_set_and_present` of `otterdog/utils.py` — set,
valid, and non-empty where emptiness is meaningful (strings, collections). -/
def is_set_and_present : Value → Bool
  | Value.unset => false
  | Value.val j => j.isPresent

/-- Python `x is True` (exact identity with the boolean `True`). -/
def isPyTrue : Value → Bool
  | Value.val (JsonVal.bool true) => true
  | _ => false

/-- Python `x is False` (exact identity with the boolean `False`). -/
def isPyFalse : Value → Bool
  | Value.val (JsonVal.bool false) => true
  | _ => false

/-- Number of occurrences of a JSON value in a list, under structural equality. -/
def countJ (x : JsonVal) (l : List JsonVal) : Nat :=
  (l.filter (fun y => JsonVal.beq x y)).length

/-- Two JSON arrays hold the same elements with the same multiplicities,
irrespective of order. -/
def sameElemsIgnoringOrder (a b : List JsonVal) : Bool :=
  a.length == b.length && a.all (fun x => countJ x a == countJ x b)

/-- Modelled from the spec: `is_different_ignoring_order` of `otterdog/utils.py` —
"equality that treats semantically-equivalent but differently-ordered collections
as equal": lists compare ignoring order, scalars exactly. -/
def is_different_ignoring_order : Value → Value → Bool
  | Value.val (JsonVal.arr a), Value.val (JsonVal.arr b) => !sameElemsIgnoringOrder a b
  | Value.val a, Value.val b => !JsonVal.beq a b
  | Value.unset, Value.unset => false
  | _, _ => true

/-- A field-level change, `Change` of `otterdog/utils.py`: the current (`from`)
and the expected (`to`) value of one field. -/
structure Change where
  from_value : Value
  to_value : Value
deriving Repr

/-- Static metadata of one dataclass field of a model object: its name and the
role flags carried in `dataclasses.field(metadata=...)`. -/
structure FieldMeta where
  name : String
  key : Bool
  read_only : Bool
  external_only : Bool
  model_only : Bool
  nested_model : Bool
deriving Repr

/-- A field with no metadata flags. -/
def plainField (n : String) : FieldMeta := ⟨n, false, false, false, false, false⟩

/-- A field with `metadata={"key": True}`. -/
def keyField (n : String) : FieldMeta := ⟨n, true, false, false, false, false⟩

/-- A field with `metadata={"read_only": True}`. -/
def readOnlyField (n : String) : FieldMeta := ⟨n, false, true, false, false, false⟩

/-- A field with `metadata={"external_only": True}`. -/
def externalOnlyField (n : String) : FieldMeta := ⟨n, false, false, true, false, false⟩

/-- A field with `metadata={"nested_model": True}`. -/
def nestedModelField (n : String) : FieldMeta := ⟨n, false, false, false, false, true⟩

/-- `ModelObject.model_fields`: all fields that are not external-only. -/
def model_fields (fields : List FieldMeta) : List FieldMeta :=
  fields.filter (fun f => !f.external_only)

/-- `ModelObject.keys`: the names of the fields that survive the diff/patch,
model-only, nested-model and unset filters, in declaration order. The entity
instance enters through its attribute getter `get` and through the (possibly
overridden) `include_field_for_diff_computation` / `include_field_for_patch_computation`
predicates. -/
def keysOf (fields : List FieldMeta) (includeDiff includePatch : FieldMeta → Bool)
    (get : String → Value)
    (for_diff for_patch include_nested_models exclude_unset_keys : Bool) : List String :=
  (model_fields fields).filterMap (fun f =>
    if for_diff && !includeDiff f then none
    else if for_patch && !includePatch f then none
    else if (for_diff || for_patch) && f.model_only then none
    else if !include_nested_models && f.nested_model then none
    else if exclude_unset_keys then
      if !is_unset (get f.name) then some f.name else none
    else some f.name)

/-- `ModelObject.get_difference_from`: `self` (getter `getSelf`) is the expected
object, `other` (getter `getOther`) the current one. Iterates
`keys(for_diff=True, for_patch=False, include_nested_models=False,
exclude_unset_keys=True)`, skips fields unset on the current side, and records a
`Change(from_value, to_value)` exactly when the two values differ under
order-insensitive equality. -/
def ModelObject.get_difference_from (fields : List FieldMeta) (includeDiff : FieldMeta → Bool)
    (getSelf getOther : String → Value) : List (String × Change) :=
  (keysOf fields includeDiff (fun _ => true) getSelf true false false true).filterMap
    (fun key =>
      let to_value := getSelf key
      let from_value := getOther key
      if is_unset from_value then none
      else if is_different_ignoring_order to_value from_value then
        some (key, ⟨from_value, to_value⟩)
      else none)

/-- `LivePatchType` — the kind of live patch. -/
inductive LivePatchType where
  | ADD : LivePatchType
  | REMOVE : LivePatchType
  | CHANGE : LivePatchType
deriving Repr, DecidableEq

/-- `LivePatch` — the frozen dataclass recording one required change. The bound
apply-function slot `fn` of the Python dataclass is a callback, not data, and is
omitted from the embedding; all remaining slots are carried verbatim. The
embedding is a pure value, which captures the frozen (never mutated) nature of
the dataclass. -/
structure LivePatch (α : Type) where
  patch_type : LivePatchType
  expected_object : Option α
  current_object : Option α
  changes : Option (List (String × Change))
  parent_object : Option α
  forced_update : Bool

/-- `LivePatch.of_addition`. -/
def LivePatch.of_addition {α : Type} (expected_object : α) (parent_object : Option α) :
    LivePatch α :=
  ⟨LivePatchType.ADD, some expected_object, none, none, parent_object, false⟩

/-- `LivePatch.of_deletion`. -/
def LivePatch.of_deletion {α : Type} (current_object : α) (parent_object : Option α) :
    LivePatch α :=
  ⟨LivePatchType.REMOVE, none, some current_object, none, parent_object, false⟩

/-- `LivePatch.of_changes`. -/
def LivePatch.of_changes {α : Type} (expected_object current_object : α)
    (changes : List (String × Change)) (parent_object : Option α) (forced_update : Bool) :
    LivePatch α :=
  ⟨LivePatchType.CHANGE, some expected_object, some current_object, some changes,
    parent_object, forced_update⟩

/-- A model document / provider payload: an insertion-ordered mapping from
field names to JSON values. -/
abbrev Doc : Type := List (String × JsonVal)

/-- `LivePatchContext` — the reconciliation context of one run. -/
structure LivePatchContext where
  org_id : String
  update_webhooks : Bool
  update_secrets : Bool
  update_filter : String
  resolve_secrets : Bool
  expected_org_settings : Doc
  modified_org_settings : List (String × Change)

/-- `FailureType` — severity of one validation failure. -/
inductive FailureType where
  | INFO : FailureType
  | WARNING : FailureType
  | ERROR : FailureType
deriving Repr, DecidableEq

/-- `ValidationContext` — accumulates `(severity, message)` failures. -/
structure ValidationContext where
  template_dir : String
  validation_failures : List (FailureType × String)

/-- `ValidationContext.add_failure`. -/
def ValidationContext.add_failure (c : ValidationContext) (failure_type : FailureType)
    (message : String) : ValidationContext :=
  { c with validation_failures := c.validation_failures ++ [(failure_type, message)] }

/-- Python `str(value)` on a field value, as interpolated into f-string messages.
Scalar cases mirror Python rendering; composite and unset renderings are not
exercised by any claim. -/
def JsonVal.render : JsonVal → String
  | JsonVal.null => "None"
  | JsonVal.str s => s
  | JsonVal.bool b => if b then "True" else "False"
  | JsonVal.num n => toString n
  | JsonVal.arr _ => "[...]"
  | JsonVal.obj _ => "{...}"

/-- Rendering of a possibly-unset value inside a message. -/
def Value.render : Value → String
  | Value.unset => "UNSET"
  | Value.val j => j.render

/-- `OrganizationWebhook` — dataclass fields in declaration order:
`id` (external-only), `events`, `active`, `url` (key), `content_type`,
`insecure_ssl`, `secret`. Every field holds a possibly-unset value. -/
structure OrganizationWebhook where
  id : Value
  events : Value
  active : Value
  url : Value
  content_type : Value
  insecure_ssl : Value
  secret : Value
deriving Repr

/-- `OrganizationWebhook.all_fields` with their `dataclasses` metadata. -/
def OrganizationWebhook.fieldsMeta : List FieldMeta :=
  [externalOnlyField "id", plainField "events", plainField "active", keyField "url",
   plainField "content_type", plainField "insecure_ssl", plainField "secret"]

/-- `__getattribute__` on an `OrganizationWebhook` by field name. -/
def OrganizationWebhook.get (w : OrganizationWebhook) : String → Value
  | "id" => w.id
  | "events" => w.events
  | "active" => w.active
  | "url" => w.url
  | "content_type" => w.content_type
  | "insecure_ssl" => w.insecure_ssl
  | "secret" => w.secret
  | _ => Value.unset

/-- `OrganizationWebhook.include_field_for_diff_computation`: the `secret`
field is excluded from diffing, every other field is included. -/
def OrganizationWebhook.include_field_for_diff_computation
    (_ : OrganizationWebhook) (field : FieldMeta) : Bool :=
  match field.name with
  | "secret" => false
  | _ => true

/-- `OrganizationWebhook.get_difference_from` (the inherited `ModelObject`
method, specialised with the webhook field table and diff-inclusion override). -/
def OrganizationWebhook.get_difference_from (self other : OrganizationWebhook) :
    List (String × Change) :=
  ModelObject.get_difference_from OrganizationWebhook.fieldsMeta
    (self.include_field_for_diff_computation) self.get other.get

/-- `all(ch == '*' for ch in secret)` on a string-valued secret; a non-string
value never triggers the dummy-secret rule in this embedding (iterating a
non-string raises in Python and no claim exercises it). -/
def secretIsAllStars : Value → Bool
  | Value.val (JsonVal.str s) => s.data.all (fun c => c == '*')
  | _ => false

/-- The dummy-secret validation message of `OrganizationWebhook.validate`. -/
def OrganizationWebhook.dummySecretMessage (w : OrganizationWebhook) : String :=
  "webhook with url '" ++ w.url.render ++ "' uses a dummy secret '" ++ w.secret.render ++
    "', provide a real secret using a credential provider."

/-- `OrganizationWebhook.validate`: adds one ERROR failure when the secret is
set, valid and consists solely of asterisks. -/
def OrganizationWebhook.validate (w : OrganizationWebhook)
    (context : ValidationContext) : ValidationContext :=
  if is_set_and_valid w.secret && secretIsAllStars w.secret then
    context.add_failure FailureType.ERROR (OrganizationWebhook.dummySecretMessage w)
  else context

/-- `OptionalS(k, default=UNSET)` on a model document: the value at `k`, or the
unset sentinel when the key is absent. -/
def optionalS (data : Doc) (k : String) : Value :=
  match List.lookup k data with
  | some j => Value.val j
  | none => Value.unset

/-- `OrganizationWebhook.from_model`: every field is bent with
`OptionalS(k, default=UNSET)`; the dataclass declares no defaults, so
`__post_init__` leaves the result unchanged. -/
def OrganizationWebhook.from_model (data : Doc) : OrganizationWebhook :=
  ⟨optionalS data "id", optionalS data "events", optionalS data "active",
   optionalS data "url", optionalS data "content_type", optionalS data "insecure_ssl",
   optionalS data "secret"⟩

/-- `OptionalS(k1, k2, default=UNSET)`: two-level traversal into a sub-object;
unset when the outer key is missing, is not an object, or lacks the inner key. -/
def optionalS2 (data : Doc) (k1 k2 : String) : Value :=
  match List.lookup k1 data with
  | some (JsonVal.obj o) =>
      match List.lookup k2 o with
      | some j => Value.val j
      | none => Value.unset
  | _ => Value.unset

/-- `S(k)` on a provider document: the strict selector, failing when the key is
absent (jsonbender raises on a missing key). -/
def strictS (data : Doc) (k : String) : Option JsonVal :=
  List.lookup k data

/-- `OrganizationWebhook.from_provider`: `id`, `events` and `active` are taken
strictly from the top level; `url`, `content_type`, `insecure_ssl` and `secret`
are taken from the nested `config` object with the unset sentinel as default.
Fails (`none`) exactly when a strict top-level key is missing. -/
def OrganizationWebhook.from_provider (data : Doc) : Option OrganizationWebhook := do
  let idv ← strictS data "id"
  let eventsv ← strictS data "events"
  let activev ← strictS data "active"
  some ⟨Value.val idv, Value.val eventsv, Value.val activev,
    optionalS2 data "config" "url", optionalS2 data "config" "content_type",
    optionalS2 data "config" "insecure_ssl", optionalS2 data "config" "secret"⟩

/-- The provider-payload field names of `OrganizationWebhook`
(`provider_fields`: not external-only, not model-only, not read-only, not
nested), in declaration order. -/
def OrganizationWebhook.providerFieldNames : List String :=
  ["events", "active", "url", "content_type", "insecure_ssl", "secret"]

/-- The four webhook fields nested under `config` in the provider payload. -/
def webhookConfigProps : List String :=
  ["url", "content_type", "insecure_ssl", "secret"]

/-- `OrganizationWebhook._to_provider`: keep the provider fields present in
`data`, move `url`, `content_type`, `insecure_ssl` and `secret` under a
`config` sub-object (appended last, as dict insertion order has it), and bend. -/
def OrganizationWebhook.to_provider (data : Doc) : Doc :=
  let presentNames := OrganizationWebhook.providerFieldNames.filter
    (fun n => (List.lookup n data).isSome)
  let topNames := presentNames.filter (fun n => !webhookConfigProps.contains n)
  let cfgNames := webhookConfigProps.filter (fun n => presentNames.contains n)
  let top : Doc := topNames.filterMap (fun n => (List.lookup n data).map (fun v => (n, v)))
  let cfg : List (String × JsonVal) :=
    cfgNames.filterMap (fun n => (List.lookup n data).map (fun v => (n, v)))
  if cfgNames.isEmpty then top else top ++ [("config", JsonVal.obj cfg)]

/-- `ModelObject.to_model_dict()` for a webhook: the set, non-external-only,
non-nested fields in declaration order with their raw values. -/
def OrganizationWebhook.to_model_dict (w : OrganizationWebhook) : Doc :=
  (keysOf OrganizationWebhook.fieldsMeta (fun _ => true) (fun _ => true) w.get
      false false false true).filterMap
    (fun k => match w.get k with
      | Value.val j => some (k, j)
      | Value.unset => none)

/-- `OrganizationSettings` — dataclass fields in declaration order; `plan` and
`two_factor_requirement` are read-only, `workflows` and `custom_properties`
are nested models, `custom_properties` carries `default_factory=list`.
`workflows` and the elements of `custom_properties` are themselves model
objects (`OrganizationWorkflowSettings`, `CustomProperty`) whose classes are
outside the provided sources; their converted contents are carried here as
opaque JSON values. -/
structure OrganizationSettings where
  name : Value
  plan : Value
  description : Value
  email : Value
  location : Value
  company : Value
  billing_email : Value
  twitter_username : Value
  blog : Value
  has_discussions : Value
  discussion_source_repository : Value
  has_organization_projects : Value
  default_branch_name : Value
  default_repository_permission : Value
  two_factor_requirement : Value
  web_commit_signoff_required : Value
  default_code_security_configurations_disabled : Value
  members_can_create_private_repositories : Value
  members_can_create_public_repositories : Value
  members_can_fork_private_repositories : Value
  members_can_create_public_pages : Value
  members_can_change_repo_visibility : Value
  members_can_delete_repositories : Value
  members_can_delete_issues : Value
  members_can_create_teams : Value
  readers_can_create_discussions : Value
  packages_containers_public : Value
  packages_containers_internal : Value
  members_can_change_project_visibility : Value
  security_managers : Value
  workflows : Value
  custom_properties : Value
deriving Repr

/-- `OrganizationSettings.all_fields` with their `dataclasses` metadata. -/
def OrganizationSettings.fieldsMeta : List FieldMeta :=
  [plainField "name", readOnlyField "plan", plainField "description", plainField "email",
   plainField "location", plainField "company", plainField "billing_email",
   plainField "twitter_username", plainField "blog", plainField "has_discussions",
   plainField "discussion_source_repository", plainField "has_organization_projects",
   plainField "default_branch_name", plainField "default_repository_permission",
   readOnlyField "two_factor_requirement", plainField "web_commit_signoff_required",
   plainField "default_code_security_configurations_disabled",
   plainField "members_can_create_private_repositories",
   plainField "members_can_create_public_repositories",
   plainField "members_can_fork_private_repositories",
   plainField "members_can_create_public_pages",
   plainField "members_can_change_repo_visibility",
   plainField "members_can_delete_repositories", plainField "members_can_delete_issues",
   plainField "members_can_create_teams", plainField "readers_can_create_discussions",
   plainField "packages_containers_public", plainField "packages_containers_internal",
   plainField "members_can_change_project_visibility", plainField "security_managers",
   nestedModelField "workflows", nestedModelField "custom_properties"]

/-- `__getattribute__` on an `OrganizationSettings` by field name. -/
def OrganizationSettings.get (s : OrganizationSettings) : String → Value
  | "name" => s.name
  | "plan" => s.plan
  | "description" => s.description
  | "email" => s.email
  | "location" => s.location
  | "company" => s.company
  | "billing_email" => s.billing_email
  | "twitter_username" => s.twitter_username
  | "blog" => s.blog
  | "has_discussions" => s.has_discussions
  | "discussion_source_repository" => s.discussion_source_repository
  | "has_organization_projects" => s.has_organization_projects
  | "default_branch_name" => s.default_branch_name
  | "default_repository_permission" => s.default_repository_permission
  | "two_factor_requirement" => s.two_factor_requirement
  | "web_commit_signoff_required" => s.web_commit_signoff_required
  | "default_code_security_configurations_disabled" =>
      s.default_code_security_configurations_disabled
  | "members_can_create_private_repositories" => s.members_can_create_private_repositories
  | "members_can_create_public_repositories" => s.members_can_create_public_repositories
  | "members_can_fork_private_repositories" => s.members_can_fork_private_repositories
  | "members_can_create_public_pages" => s.members_can_create_public_pages
  | "members_can_change_repo_visibility" => s.members_can_change_repo_visibility
  | "members_can_delete_repositories" => s.members_can_delete_repositories
  | "members_can_delete_issues" => s.members_can_delete_issues
  | "members_can_create_teams" => s.members_can_create_teams
  | "readers_can_create_discussions" => s.readers_can_create_discussions
  | "packages_containers_public" => s.packages_containers_public
  | "packages_containers_internal" => s.packages_containers_internal
  | "members_can_change_project_visibility" => s.members_can_change_project_visibility
  | "security_managers" => s.security_managers
  | "workflows" => s.workflows
  | "custom_properties" => s.custom_properties
  | _ => Value.unset

/-- `ModelObject.__post_init__` on `OrganizationSettings`: the only field with a
declared dataclass default is `custom_properties` (`default_factory=list`), so
an unset `custom_properties` is replaced by the empty list. -/
def OrganizationSettings.post_init (s : OrganizationSettings) : OrganizationSettings :=
  if is_unset s.custom_properties then
    { s with custom_properties := Value.val (JsonVal.arr []) }
  else s

/-- `OrganizationSettings.from_model_data`: every field is bent with
`OptionalS(k, default=UNSET)`, except `custom_properties` (absent becomes the
empty list, elements pass through `CustomProperty.from_model_data`, carried
opaquely here) and `workflows` (absent or null becomes unset, otherwise the
converted `OrganizationWorkflowSettings`, carried opaquely); construction then
runs `__post_init__`. -/
def OrganizationSettings.from_model_data (data : Doc) : OrganizationSettings :=
  OrganizationSettings.post_init
    { name := optionalS data "name"
      plan := optionalS data "plan"
      description := optionalS data "description"
      email := optionalS data "email"
      location := optionalS data "location"
      company := optionalS data "company"
      billing_email := optionalS data "billing_email"
      twitter_username := optionalS data "twitter_username"
      blog := optionalS data "blog"
      has_discussions := optionalS data "has_discussions"
      discussion_source_repository := optionalS data "discussion_source_repository"
      has_organization_projects := optionalS data "has_organization_projects"
      default_branch_name := optionalS data "default_branch_name"
      default_repository_permission := optionalS data "default_repository_permission"
      two_factor_requirement := optionalS data "two_factor_requirement"
      web_commit_signoff_required := optionalS data "web_commit_signoff_required"
      default_code_security_configurations_disabled :=
        optionalS data "default_code_security_configurations_disabled"
      members_can_create_private_repositories :=
        optionalS data "members_can_create_private_repositories"
      members_can_create_public_repositories :=
        optionalS data "members_can_create_public_repositories"
      members_can_fork_private_repositories :=
        optionalS data "members_can_fork_private_repositories"
      members_can_create_public_pages := optionalS data "members_can_create_public_pages"
      members_can_change_repo_visibility := optionalS data "members_can_change_repo_visibility"
      members_can_delete_repositories := optionalS data "members_can_delete_repositories"
      members_can_delete_issues := optionalS data "members_can_delete_issues"
      members_can_create_teams := optionalS data "members_can_create_teams"
      readers_can_create_discussions := optionalS data "readers_can_create_discussions"
      packages_containers_public := optionalS data "packages_containers_public"
      packages_containers_internal := optionalS data "packages_containers_internal"
      members_can_change_project_visibility :=
        optionalS data "members_can_change_project_visibility"
      security_managers := optionalS data "security_managers"
      workflows :=
        match List.lookup "workflows" data with
        | none => Value.unset
        | some JsonVal.null => Value.unset
        | some j => Value.val j
      custom_properties :=
        match List.lookup "custom_properties" data with
        | some j => Value.val j
        | none => Value.val (JsonVal.arr []) }

/-- `OrganizationSettings.include_field_for_diff_computation`: when
`has_discussions` is `False`, the `discussion_source_repository` field is
excluded from diffing; every other field is included. -/
def OrganizationSettings.include_field_for_diff_computation
    (s : OrganizationSettings) (field : FieldMeta) : Bool :=
  if isPyFalse s.has_discussions && field.name == "discussion_source_repository" then false
  else true

/-- `OrganizationSettings.get_difference_from` (the inherited `ModelObject`
method, specialised with the settings field table and diff-inclusion override). -/
def OrganizationSettings.get_difference_from (self other : OrganizationSettings) :
    List (String × Change) :=
  ModelObject.get_difference_from OrganizationSettings.fieldsMeta
    (self.include_field_for_diff_computation) self.get other.get

/-- Python `len(value)` on a field value, as used by the validation rules. -/
def pyLen : Value → Nat
  | Value.val (JsonVal.str s) => s.length
  | Value.val (JsonVal.arr l) => l.length
  | Value.val (JsonVal.obj l) => l.length
  | _ => 0

/-- Python `"/" in value` for the values the discussion-source-repository rule
can see (strings; membership for lists). -/
def valueContainsSlash : Value → Bool
  | Value.val (JsonVal.str s) => s.data.contains '/'
  | Value.val (JsonVal.arr l) =>
      !(l.filter (fun e => JsonVal.beq (JsonVal.str "/") e)).isEmpty
  | _ => false

/-- Membership of the permission value in `{"none", "read", "write", "admin"}`. -/
def isAllowedPermissionValue : Value → Bool
  | Value.val (JsonVal.str s) => s == "none" || s == "read" || s == "write" || s == "admin"
  | _ => false

/-- The elements of the `custom_properties` collection. -/
def customPropsElems : Value → List JsonVal
  | Value.val (JsonVal.arr es) => es
  | _ => []

/-- Append a batch of failures to a validation context through `add_failure`. -/
def addFailures (context : ValidationContext) (fs : List (FailureType × String)) :
    ValidationContext :=
  fs.foldl (fun c f => c.add_failure f.1 f.2) context

/-- Modelled from the spec: the organization-supplied validation hooks that
`OrganizationSettings.validate` dispatches to but whose code is outside the
provided sources — `execute_custom_validation_if_present` executes the script
`validate-org-settings.py` found in the context's template directory
("a hook for organization-supplied custom rules resolved by entity-type name"),
and the child validators `CustomProperty.validate` and
`OrganizationWorkflowSettings.validate`. Each is modelled as a pure function
from its input to the batch of failures it adds. -/
structure OrgValidationHooks where
  customScript : String → List (FailureType × String)
  customPropertyValidate : JsonVal → List (FailureType × String)
  workflowsValidate : JsonVal → List (FailureType × String)

/-- The hook assignment for an organization with no custom validation script
and child entities that validate cleanly. -/
def noCustomValidation : OrgValidationHooks :=
  ⟨fun _ => [], fun _ => [], fun _ => []⟩

/-- The fixed message of the description-length rule. -/
def descriptionTooLongMessage : String :=
  "setting 'description' exceeds maximum allowed length of 160 chars."

/-- The fixed message of the discussions rule. -/
def discussionRepoMissingMessage : String :=
  "enabling 'has_discussions' requires setting a valid repository in 'discussion_source_repository'."

/-- The fixed message of the discussion-source-repository format rule. -/
def discussionRepoFormatMessage : String :=
  "setting 'discussion_source_repository' requires a repository in '<owner>/<repo-name>' format."

/-- The message of the default-repository-permission rule, interpolating the
offending value. -/
def defaultRepositoryPermissionMessage (s : OrganizationSettings) : String :=
  "'default_repository_permission' has value '" ++ s.default_repository_permission.render ++
    "', only values ('none' | 'read' | 'write' | 'admin') are allowed."

/-- `execute_custom_validation_if_present(context, "validate-org-settings.py")`:
append whatever failures the custom script found in the context's template
directory adds. -/
def run_custom_validation (hooks : OrgValidationHooks) (context : ValidationContext) :
    ValidationContext :=
  addFailures context (hooks.customScript context.template_dir)

/-- The description-length rule of `OrganizationSettings.validate`. -/
def validateDescriptionRule (s : OrganizationSettings) (context : ValidationContext) :
    ValidationContext :=
  if is_set_and_present s.description && decide (160 < pyLen s.description) then
    context.add_failure FailureType.ERROR descriptionTooLongMessage
  else context

/-- The discussions rule of `OrganizationSettings.validate`. -/
def validateDiscussionsRule (s : OrganizationSettings) (context : ValidationContext) :
    ValidationContext :=
  if isPyTrue s.has_discussions && !is_set_and_valid s.discussion_source_repository then
    context.add_failure FailureType.ERROR discussionRepoMissingMessage
  else context

/-- The discussion-source-repository format rule of `OrganizationSettings.validate`. -/
def validateDiscussionRepoFormatRule (s : OrganizationSettings)
    (context : ValidationContext) : ValidationContext :=
  if is_set_and_present s.discussion_source_repository &&
      !valueContainsSlash s.discussion_source_repository then
    context.add_failure FailureType.ERROR discussionRepoFormatMessage
  else context

/-- The default-repository-permission rule of `OrganizationSettings.validate`. -/
def validateDefaultRepositoryPermissionRule (s : OrganizationSettings)
    (context : ValidationContext) : ValidationContext :=
  if is_set_and_valid s.default_repository_permission &&
      !isAllowedPermissionValue s.default_repository_permission then
    context.add_failure FailureType.ERROR (defaultRepositoryPermissionMessage s)
  else context

/-- The recursion into `custom_properties` of `OrganizationSettings.validate`. -/
def validateCustomPropertiesChildren (s : OrganizationSettings) (hooks : OrgValidationHooks)
    (context : ValidationContext) : ValidationContext :=
  if is_set_and_present s.custom_properties then
    (customPropsElems s.custom_properties).foldl
      (fun c e => addFailures c (hooks.customPropertyValidate e)) context
  else context

/-- The recursion into `workflows` of `OrganizationSettings.validate`. -/
def validateWorkflowsChild (s : OrganizationSettings) (hooks : OrgValidationHooks)
    (context : ValidationContext) : ValidationContext :=
  if is_set_and_present s.workflows then
    match s.workflows with
    | Value.val j => addFailures context (hooks.workflowsValidate j)
    | Value.unset => context
  else context

/-- `OrganizationSettings.validate`: runs the custom script hook, then the four
declarative rules in source order, then recurses into `custom_properties` and
`workflows`; all effects go through `add_failure`. The sequential statements of
the Python method are the composition of the step functions above. -/
def OrganizationSettings.validate (s : OrganizationSettings) (hooks : OrgValidationHooks)
    (context : ValidationContext) : ValidationContext :=
  validateWorkflowsChild s hooks
    (validateCustomPropertiesChildren s hooks
      (validateDefaultRepositoryPermissionRule s
        (validateDiscussionRepoFormatRule s
          (validateDiscussionsRule s
            (validateDescriptionRule s
              (run_custom_validation hooks context))))))

/-- The policy override inlined in `OrganizationSettings.generate_live_patch`:
`default_code_security_configurations_disabled` "is only intended to disable any
existing default configuration, it can not be enabled per se", so a computed
change whose `from_value` is `True` and whose `to_value` is `False` is popped
from the change map; any other change for the field is kept. -/
def dropDisabledCodeSecurityConfigChange (modified : List (String × Change)) :
    List (String × Change) :=
  match List.lookup "default_code_security_configurations_disabled" modified with
  | some change =>
      if isPyTrue change.from_value && isPyFalse change.to_value then
        modified.filter (fun p => p.1 != "default_code_security_configurations_disabled")
      else modified
  | none => modified

/-- `OrganizationSettings.generate_live_patch`: computes the field diff from the
expected to the current settings, applies the one-way policy override, emits one
CHANGE patch through the handler exactly when the remaining change set is
non-empty, and records the remaining change set into
`context.modified_org_settings`. The handler is modelled by returning the list
of emitted patches. The recursion into `custom_properties` and `workflows`
(`CustomProperty.generate_live_patch_of_list`,
`OrganizationWorkflowSettings.generate_live_patch` — code outside the provided
sources) emits patches only for those child entities and is not part of the
settings-level emission modelled here. -/
def OrganizationSettings.generate_live_patch (expected_object current_object : OrganizationSettings)
    (parent_object : Option OrganizationSettings) (context : LivePatchContext) :
    List (LivePatch OrganizationSettings) × LivePatchContext :=
  let modified_settings :=
    dropDisabledCodeSecurityConfigChange
      (expected_object.get_difference_from current_object)
  let patches :=
    if 0 < modified_settings.length then
      [LivePatch.of_changes expected_object current_object modified_settings parent_object false]
    else []
  (patches, { context with modified_org_settings := modified_settings })

/-- `Repository` — dataclass fields in declaration order; `name` is the identity
key and `branch_protection_rules` carries `default_factory=list`. The elements
of `branch_protection_rules` are `BranchProtectionRule` objects whose class is
outside the provided sources; their converted contents are carried opaquely. -/
structure Repository where
  name : Value
  description : Value
  homepage : Value
  private_ : Value
  has_issues : Value
  has_projects : Value
  has_wiki : Value
  default_branch : Value
  allow_rebase_merge : Value
  allow_merge_commit : Value
  allow_squash_merge : Value
  allow_auto_merge : Value
  delete_branch_on_merge : Value
  allow_update_branch : Value
  squash_merge_commit_title : Value
  squash_merge_commit_message : Value
  merge_commit_title : Value
  merge_commit_message : Value
  archived : Value
  allow_forking : Value
  web_commit_signoff_required : Value
  secret_scanning : Value
  secret_scanning_push_protection : Value
  dependabot_alerts_enabled : Value
  branch_protection_rules : Value
deriving Repr

/-- `__getattribute__` on a `Repository` by field name (the Python field
`private` is spelled `private_` in the Lean structure, `private` being reserved;
the string key keeps the source spelling). -/
def Repository.get (r : Repository) : String → Value
  | "name" => r.name
  | "description" => r.description
  | "homepage" => r.homepage
  | "private" => r.private_
  | "has_issues" => r.has_issues
  | "has_projects" => r.has_projects
  | "has_wiki" => r.has_wiki
  | "default_branch" => r.default_branch
  | "allow_rebase_merge" => r.allow_rebase_merge
  | "allow_merge_commit" => r.allow_merge_commit
  | "allow_squash_merge" => r.allow_squash_merge
  | "allow_auto_merge" => r.allow_auto_merge
  | "delete_branch_on_merge" => r.delete_branch_on_merge
  | "allow_update_branch" => r.allow_update_branch
  | "squash_merge_commit_title" => r.squash_merge_commit_title
  | "squash_merge_commit_message" => r.squash_merge_commit_message
  | "merge_commit_title" => r.merge_commit_title
  | "merge_commit_message" => r.merge_commit_message
  | "archived" => r.archived
  | "allow_forking" => r.allow_forking
  | "web_commit_signoff_required" => r.web_commit_signoff_required
  | "secret_scanning" => r.secret_scanning
  | "secret_scanning_push_protection" => r.secret_scanning_push_protection
  | "dependabot_alerts_enabled" => r.dependabot_alerts_enabled
  | "branch_protection_rules" => r.branch_protection_rules
  | _ => Value.unset

/-- `ModelObject.__post_init__` on `Repository`: the only field with a declared
dataclass default is `branch_protection_rules` (`default_factory=list`). -/
def Repository.post_init (r : Repository) : Repository :=
  if is_unset r.branch_protection_rules then
    { r with branch_protection_rules := Value.val (JsonVal.arr []) }
  else r

/-- `Repository.from_model`: every field is bent with
`OptionalS(k, default=UNSET)`, except `branch_protection_rules` (absent becomes
the empty list, elements pass through `BranchProtectionRule.from_model`, carried
opaquely here); construction then runs `__post_init__`. -/
def Repository.from_model (data : Doc) : Repository :=
  Repository.post_init
    { name := optionalS data "name"
      description := optionalS data "description"
      homepage := optionalS data "homepage"
      private_ := optionalS data "private"
      has_issues := optionalS data "has_issues"
      has_projects := optionalS data "has_projects"
      has_wiki := optionalS data "has_wiki"
      default_branch := optionalS data "default_branch"
      allow_rebase_merge := optionalS data "allow_rebase_merge"
      allow_merge_commit := optionalS data "allow_merge_commit"
      allow_squash_merge := optionalS data "allow_squash_merge"
      allow_auto_merge := optionalS data "allow_auto_merge"
      delete_branch_on_merge := optionalS data "delete_branch_on_merge"
      allow_update_branch := optionalS data "allow_update_branch"
      squash_merge_commit_title := optionalS data "squash_merge_commit_title"
      squash_merge_commit_message := optionalS data "squash_merge_commit_message"
      merge_commit_title := optionalS data "merge_commit_title"
      merge_commit_message := optionalS data "merge_commit_message"
      archived := optionalS data "archived"
      allow_forking := optionalS data "allow_forking"
      web_commit_signoff_required := optionalS data "web_commit_signoff_required"
      secret_scanning := optionalS data "secret_scanning"
      secret_scanning_push_protection := optionalS data "secret_scanning_push_protection"
      dependabot_alerts_enabled := optionalS data "dependabot_alerts_enabled"
      branch_protection_rules :=
        match List.lookup "branch_protection_rules" data with
        | some j => Value.val j
        | none => Value.val (JsonVal.arr []) }

/-! ## Theorems -/

theorem keysOf_diff_sound (fields : List FieldMeta) (includeDiff includePatch : FieldMeta → Bool)
    (get : String → Value) (key : String)
    (h : key ∈ keysOf fields includeDiff includePatch get true false false true) :
    is_unset (get key) = false ∧
      ∃ f, f ∈ model_fields fields ∧ f.name = key ∧ includeDiff f = true := by
  unfold keysOf at h
  rw [List.mem_filterMap] at h
  obtain ⟨f, hf, hsome⟩ := h
  by_cases h1 : includeDiff f <;> by_cases h2 : f.model_only <;>
    by_cases h3 : f.nested_model <;> by_cases h4 : is_unset (get f.name) <;>
    simp [h1, h2, h3, h4] at hsome
  subst hsome
  exact ⟨by simpa using h4, f, hf, rfl, h1⟩

theorem mem_get_difference_from (fields : List FieldMeta) (includeDiff : FieldMeta → Bool)
    (getSelf getOther : String → Value) (key : String) (ch : Change)
    (h : (key, ch) ∈ ModelObject.get_difference_from fields includeDiff getSelf getOther) :
    is_unset (getSelf key) = false ∧ is_unset (getOther key) = false ∧
      is_different_ignoring_order (getSelf key) (getOther key) = true ∧
      ch = ⟨getOther key, getSelf key⟩ := by
  unfold ModelObject.get_difference_from at h
  rw [List.mem_filterMap] at h
  obtain ⟨k, hk, hsome⟩ := h
  simp only at hsome
  by_cases h1 : is_unset (getOther k) <;>
    by_cases h2 : is_different_ignoring_order (getSelf k) (getOther k) <;>
    simp [h1, h2] at hsome
  obtain ⟨rfl, hch⟩ := hsome
  exact ⟨(keysOf_diff_sound _ _ _ _ _ hk).1, by simpa using h1, h2, hch.symm⟩

theorem mem_diff_key_mem_keysOf (fields : List FieldMeta) (includeDiff : FieldMeta → Bool)
    (getSelf getOther : String → Value) (key : String) (ch : Change)
    (h : (key, ch) ∈ ModelObject.get_difference_from fields includeDiff getSelf getOther) :
    key ∈ keysOf fields includeDiff (fun _ => true) getSelf true false false true := by
  unfold ModelObject.get_difference_from at h
  rw [List.mem_filterMap] at h
  obtain ⟨k, hk, hsome⟩ := h
  simp only at hsome
  by_cases h1 : is_unset (getOther k) <;>
    by_cases h2 : is_different_ignoring_order (getSelf k) (getOther k) <;>
    simp [h1, h2] at hsome
  obtain ⟨rfl, -⟩ := hsome
  exact hk

theorem lookup_eq_none_of_forall_ne {l : List (String × Change)} {k : String}
    (h : ∀ p ∈ l, p.1 ≠ k) : List.lookup k l = none := by
  induction l with
  | nil => rfl
  | cons p t ih =>
      have hne : p.1 ≠ k := h p (List.Mem.head _)
      rw [List.lookup]
      have hb : (k == p.1) = false := by
        simpa [beq_iff_eq] using fun e => hne e.symm
      simp [hb]
      intro a b hab e
      exact h (a, b) (List.Mem.tail _ hab) e.symm

/-- C1: in `get_difference_from`, a field unset on the expected (`self`) side
never appears in the diff map (unset fields are excluded by `keys` with
`exclude_unset_keys=True`), a field unset on the current (`other`) side is
skipped, and every entry of the map records values that differ under
order-insensitive equality — stated for an arbitrary entity type (field table,
diff-inclusion override and attribute getters). -/
theorem claim_C1_diff_unset_exclusion (fields : List FieldMeta)
    (includeDiff : FieldMeta → Bool) (getSelf getOther : String → Value)
    (key : String) (ch : Change)
    (h : (key, ch) ∈ ModelObject.get_difference_from fields includeDiff getSelf getOther) :
    is_unset (getSelf key) = false ∧ is_unset (getOther key) = false ∧
      is_different_ignoring_order (getSelf key) (getOther key) = true :=
  let r := mem_get_difference_from fields includeDiff getSelf getOther key ch h
  ⟨r.1, r.2.1, r.2.2.1⟩

/-- An expected webhook whose `active` flag differs from the current one. -/
def webhookExpectedExample : OrganizationWebhook := OrganizationWebhook.from_model
  [("url", JsonVal.str "https://example.org/hook"), ("active", JsonVal.bool true),
   ("secret", JsonVal.str "s1")]

/-- The current counterpart of `webhookExpectedExample`. -/
def webhookCurrentExample : OrganizationWebhook := OrganizationWebhook.from_model
  [("url", JsonVal.str "https://example.org/hook"), ("active", JsonVal.bool false),
   ("secret", JsonVal.str "s2")]

/-- Witness for C1: the diff of the two example webhooks contains the `active`
entry, and the theorem yields the three facts about it. -/
theorem claim_C1_diff_unset_exclusion_witness :
    is_unset (webhookExpectedExample.get "active") = false ∧
      is_unset (webhookCurrentExample.get "active") = false ∧
      is_different_ignoring_order (webhookExpectedExample.get "active")
        (webhookCurrentExample.get "active") = true :=
  claim_C1_diff_unset_exclusion OrganizationWebhook.fieldsMeta
    (webhookExpectedExample.include_field_for_diff_computation)
    webhookExpectedExample.get webhookCurrentExample.get "active"
    ⟨Value.val (JsonVal.bool false), Value.val (JsonVal.bool true)⟩
    (List.Mem.head _)

/-- C3: the `secret` field of an organization webhook never appears in the diff
map returned by `get_difference_from`, for every pair of webhooks — including
pairs whose secrets differ — because `include_field_for_diff_computation`
excludes it. -/
theorem claim_C3_webhook_secret_never_diffed (w1 w2 : OrganizationWebhook) :
    List.lookup "secret" (OrganizationWebhook.get_difference_from w1 w2) = none := by
  apply lookup_eq_none_of_forall_ne
  rintro ⟨key, ch⟩ hp hkey
  subst hkey
  have hmem := mem_diff_key_mem_keysOf _ _ _ _ _ _ hp
  obtain ⟨-, f, hf, hname, hincl⟩ := keysOf_diff_sound _ _ _ _ _ hmem
  simp [model_fields, OrganizationWebhook.fieldsMeta, plainField, keyField,
    externalOnlyField] at hf
  rcases hf with rfl | rfl | rfl | rfl | rfl | rfl <;>
    simp_all [OrganizationWebhook.include_field_for_diff_computation, plainField,
      keyField]

theorem mem_generate_live_patch (e c : OrganizationSettings) (p : Option OrganizationSettings)
    (ctx : LivePatchContext) (patch : LivePatch OrganizationSettings)
    (h : patch ∈ (OrganizationSettings.generate_live_patch e c p ctx).1) :
    patch = LivePatch.of_changes e c
        (dropDisabledCodeSecurityConfigChange (e.get_difference_from c)) p false ∧
      dropDisabledCodeSecurityConfigChange (e.get_difference_from c) ≠ [] := by
  unfold OrganizationSettings.generate_live_patch at h
  simp only at h
  split at h
  · rename_i hlen
    refine ⟨by simpa using h, ?_⟩
    intro hnil
    rw [hnil] at hlen
    simp at hlen
  · simp at h

theorem lookup_filter_key_ne (l : List (String × Change)) (k : String) :
    List.lookup k (l.filter (fun p => p.1 != k)) = none := by
  apply lookup_eq_none_of_forall_ne
  intro p hp
  have h2 := (List.mem_filter.mp hp).2
  simpa using h2

theorem dropDisabled_no_true_to_false (m : List (String × Change)) (ch : Change)
    (h : List.lookup "default_code_security_configurations_disabled"
        (dropDisabledCodeSecurityConfigChange m) = some ch) :
    ¬(ch.from_value = Value.val (JsonVal.bool true) ∧
      ch.to_value = Value.val (JsonVal.bool false)) := by
  rintro ⟨hf, ht⟩
  unfold dropDisabledCodeSecurityConfigChange at h
  split at h
  · rename_i change hlook
    split at h
    · rw [lookup_filter_key_ne] at h
      exact Option.noConfusion h
    · rename_i hcond
      rw [hlook] at h
      obtain rfl : change = ch := Option.some.inj h
      rw [hf, ht] at hcond
      simp [isPyTrue, isPyFalse] at hcond
  · rename_i hlook
    rw [hlook] at h
    exact Option.noConfusion h

/-- C2: `of_addition` yields an ADD patch with the expected object set and no
current object; `of_deletion` the mirror REMOVE patch; and every patch the
settings diff engine emits is a CHANGE patch with both objects set and a
non-empty change map. The `LivePatch` embedding is a pure value, matching the
frozen (never mutated) dataclass. -/
theorem claim_C2_live_patch_invariants :
    (∀ (α : Type) (e : α) (p : Option α),
        (LivePatch.of_addition e p).patch_type = LivePatchType.ADD ∧
        (LivePatch.of_addition e p).expected_object = some e ∧
        (LivePatch.of_addition e p).current_object = none) ∧
    (∀ (α : Type) (c : α) (p : Option α),
        (LivePatch.of_deletion c p).patch_type = LivePatchType.REMOVE ∧
        (LivePatch.of_deletion c p).current_object = some c ∧
        (LivePatch.of_deletion c p).expected_object = none) ∧
    (∀ (e c : OrganizationSettings) (p : Option OrganizationSettings)
        (ctx : LivePatchContext) (patch : LivePatch OrganizationSettings),
        patch ∈ (OrganizationSettings.generate_live_patch e c p ctx).1 →
        patch.patch_type = LivePatchType.CHANGE ∧
        patch.expected_object = some e ∧ patch.current_object = some c ∧
        ∃ chs, patch.changes = some chs ∧ chs ≠ []) := by
  refine ⟨fun α e p => ⟨rfl, rfl, rfl⟩, fun α c p => ⟨rfl, rfl, rfl⟩, ?_⟩
  intro e c p ctx patch h
  obtain ⟨rfl, hne⟩ := mem_generate_live_patch e c p ctx patch h
  exact ⟨rfl, rfl, rfl, _, rfl, hne⟩

/-- Expected settings differing from `settingsCurrentExample` in `billing_email`. -/
def settingsExpectedExample : OrganizationSettings :=
  OrganizationSettings.from_model_data [("billing_email", JsonVal.str "expected@example.org")]

/-- Current settings differing from `settingsExpectedExample` in `billing_email`. -/
def settingsCurrentExample : OrganizationSettings :=
  OrganizationSettings.from_model_data [("billing_email", JsonVal.str "current@example.org")]

/-- A reconciliation context at the start of a pass. -/
def livePatchContextExample : LivePatchContext :=
  ⟨"example-org", false, false, "", false, [], []⟩

/-- Witness for C2: the CHANGE patch emitted for the example settings pair
satisfies the CHANGE-shape invariant. -/
theorem claim_C2_live_patch_invariants_witness :
    (LivePatch.of_changes settingsExpectedExample settingsCurrentExample
        (dropDisabledCodeSecurityConfigChange
          (settingsExpectedExample.get_difference_from settingsCurrentExample))
        none false).patch_type = LivePatchType.CHANGE ∧
      (LivePatch.of_changes settingsExpectedExample settingsCurrentExample
        (dropDisabledCodeSecurityConfigChange
          (settingsExpectedExample.get_difference_from settingsCurrentExample))
        none false).expected_object = some settingsExpectedExample ∧
      (LivePatch.of_changes settingsExpectedExample settingsCurrentExample
        (dropDisabledCodeSecurityConfigChange
          (settingsExpectedExample.get_difference_from settingsCurrentExample))
        none false).current_object = some settingsCurrentExample ∧
      ∃ chs, (LivePatch.of_changes settingsExpectedExample settingsCurrentExample
        (dropDisabledCodeSecurityConfigChange
          (settingsExpectedExample.get_difference_from settingsCurrentExample))
        none false).changes = some chs ∧ chs ≠ [] :=
  claim_C2_live_patch_invariants.2.2 settingsExpectedExample settingsCurrentExample
    none livePatchContextExample _ (List.Mem.head _)

/-- C5: `generate_live_patch` on organization settings emits exactly one CHANGE
patch if and only if the change set remaining after the one-way policy override
is non-empty, every emitted patch is that CHANGE patch, and the remaining
change set is recorded into `context.modified_org_settings` in every case,
including the empty one. -/
theorem claim_C5_settings_change_emission (e c : OrganizationSettings)
    (p : Option OrganizationSettings) (ctx : LivePatchContext) :
    ((OrganizationSettings.generate_live_patch e c p ctx).1.length = 1 ↔
        dropDisabledCodeSecurityConfigChange (e.get_difference_from c) ≠ []) ∧
      ((OrganizationSettings.generate_live_patch e c p ctx).1 = [] ↔
        dropDisabledCodeSecurityConfigChange (e.get_difference_from c) = []) ∧
      (∀ patch ∈ (OrganizationSettings.generate_live_patch e c p ctx).1,
        patch = LivePatch.of_changes e c
          (dropDisabledCodeSecurityConfigChange (e.get_difference_from c)) p false) ∧
      (OrganizationSettings.generate_live_patch e c p ctx).2.modified_org_settings =
        dropDisabledCodeSecurityConfigChange (e.get_difference_from c) := by
  refine ⟨?_, ?_, fun patch h => (mem_generate_live_patch e c p ctx patch h).1, rfl⟩ <;>
    unfold OrganizationSettings.generate_live_patch <;> simp only <;>
    cases hrem : dropDisabledCodeSecurityConfigChange (e.get_difference_from c) <;>
    simp

/-- Witness for C5: at the example settings pair the emitted patch list is the
singleton CHANGE patch and the context records the change set. -/
theorem claim_C5_settings_change_emission_witness :
    (OrganizationSettings.generate_live_patch settingsExpectedExample settingsCurrentExample
        none livePatchContextExample).1.length = 1 ∧
      (OrganizationSettings.generate_live_patch settingsExpectedExample settingsCurrentExample
        none livePatchContextExample).2.modified_org_settings =
        dropDisabledCodeSecurityConfigChange
          (settingsExpectedExample.get_difference_from settingsCurrentExample) :=
  ⟨(claim_C5_settings_change_emission settingsExpectedExample settingsCurrentExample
      none livePatchContextExample).1.mpr (fun h => List.noConfusion h),
   (claim_C5_settings_change_emission settingsExpectedExample settingsCurrentExample
      none livePatchContextExample).2.2.2⟩

/-- C4: the one-way override on `default_code_security_configurations_disabled`
drops a computed change whose direction is `from=True, to=False`, keeps a change
whose direction is `from=False, to=True`, and consequently no emitted CHANGE
patch ever carries a `True` to `False` change for that field. -/
theorem claim_C4_one_way_code_security (m : List (String × Change)) (change : Change) :
    (List.lookup "default_code_security_configurations_disabled" m = some change →
      change.from_value = Value.val (JsonVal.bool true) →
      change.to_value = Value.val (JsonVal.bool false) →
      List.lookup "default_code_security_configurations_disabled"
        (dropDisabledCodeSecurityConfigChange m) = none) ∧
    (List.lookup "default_code_security_configurations_disabled" m = some change →
      change.from_value = Value.val (JsonVal.bool false) →
      change.to_value = Value.val (JsonVal.bool true) →
      List.lookup "default_code_security_configurations_disabled"
        (dropDisabledCodeSecurityConfigChange m) = some change) ∧
    (∀ (e c : OrganizationSettings) (p : Option OrganizationSettings)
        (ctx : LivePatchContext) (patch : LivePatch OrganizationSettings)
        (chs : List (String × Change)) (ch : Change),
      patch ∈ (OrganizationSettings.generate_live_patch e c p ctx).1 →
      patch.changes = some chs →
      List.lookup "default_code_security_configurations_disabled" chs = some ch →
      ¬(ch.from_value = Value.val (JsonVal.bool true) ∧
        ch.to_value = Value.val (JsonVal.bool false))) := by
  refine ⟨?_, ?_, ?_⟩
  · intro hlook hf ht
    unfold dropDisabledCodeSecurityConfigChange
    rw [hlook]
    show List.lookup _
      (if (isPyTrue change.from_value && isPyFalse change.to_value) = true then _ else _) = _
    rw [if_pos (by simp [hf, ht, isPyTrue, isPyFalse])]
    exact lookup_filter_key_ne m _
  · intro hlook hf ht
    unfold dropDisabledCodeSecurityConfigChange
    rw [hlook]
    show List.lookup _
      (if (isPyTrue change.from_value && isPyFalse change.to_value) = true then _ else _) = _
    rw [if_neg (by simp [hf, isPyTrue])]
    exact hlook
  · intro e c p ctx patch chs ch hmem hchs hlook
    obtain ⟨rfl, -⟩ := mem_generate_live_patch e c p ctx patch hmem
    obtain rfl : dropDisabledCodeSecurityConfigChange (e.get_difference_from c) = chs :=
      Option.some.inj hchs
    exact dropDisabled_no_true_to_false _ ch hlook

/-- A change map disabling the code-security override in the dropped direction. -/
def trueToFalseChangeMap : List (String × Change) :=
  [("default_code_security_configurations_disabled",
    ⟨Value.val (JsonVal.bool true), Value.val (JsonVal.bool false)⟩)]

/-- A change map in the kept direction. -/
def falseToTrueChangeMap : List (String × Change) :=
  [("default_code_security_configurations_disabled",
    ⟨Value.val (JsonVal.bool false), Value.val (JsonVal.bool true)⟩)]

/-- Witness for C4: both directions at concrete change maps. -/
theorem claim_C4_one_way_code_security_witness :
    List.lookup "default_code_security_configurations_disabled"
        (dropDisabledCodeSecurityConfigChange trueToFalseChangeMap) = none ∧
      List.lookup "default_code_security_configurations_disabled"
        (dropDisabledCodeSecurityConfigChange falseToTrueChangeMap) =
        some ⟨Value.val (JsonVal.bool false), Value.val (JsonVal.bool true)⟩ :=
  ⟨(claim_C4_one_way_code_security trueToFalseChangeMap
      ⟨Value.val (JsonVal.bool true), Value.val (JsonVal.bool false)⟩).1 rfl rfl rfl,
   (claim_C4_one_way_code_security falseToTrueChangeMap
      ⟨Value.val (JsonVal.bool false), Value.val (JsonVal.bool true)⟩).2.1 rfl rfl rfl⟩

theorem webhook_from_model_absent (data : Doc) (k : String)
    (hk : List.lookup k data = none) :
    (OrganizationWebhook.from_model data).get k = Value.unset := by
  unfold OrganizationWebhook.from_model OrganizationWebhook.get
  split <;> simp [optionalS, hk]

theorem settings_from_model_absent (data : Doc) (k : String)
    (hk : List.lookup k data = none) :
    OrganizationSettings.get (OrganizationSettings.from_model_data data) k =
      (if k = "custom_properties" then Value.val (JsonVal.arr []) else Value.unset) := by
  unfold OrganizationSettings.get
  split <;>
    simp [OrganizationSettings.from_model_data, OrganizationSettings.post_init,
      apply_ite, optionalS, hk] <;>
    assumption

theorem repository_from_model_absent (data : Doc) (k : String)
    (hk : List.lookup k data = none) :
    Repository.get (Repository.from_model data) k =
      (if k = "branch_protection_rules" then Value.val (JsonVal.arr []) else Value.unset) := by
  unfold Repository.get
  split <;>
    simp [Repository.from_model, Repository.post_init, apply_ite, optionalS, hk] <;>
    assumption

/-- C6 (counterexample): the claim "every field absent from the document stays
unset" fails at a concrete input — constructing `OrganizationSettings` from the
empty document leaves `custom_properties` equal to the empty list, not the
unset sentinel, because the field carries a declared default
(`default_factory=list`) applied by the factory mapping and `__post_init__`. -/
theorem claim_C6_counterexample_custom_properties :
    List.lookup "custom_properties" ([] : Doc) = none ∧
      OrganizationSettings.get (OrganizationSettings.from_model_data []) "custom_properties" ≠
        Value.unset :=
  ⟨rfl, fun h => Value.noConfusion h⟩

/-- C6 (amended): constructing an entity from a document in which a field is
absent leaves the field unset for every field without a declared schema
default; the fields with a declared default — `custom_properties` of
`OrganizationSettings` and `branch_protection_rules` of `Repository`, both
defaulting to the empty list — resolve to that declared default instead. -/
theorem claim_C6_absent_fields_resolve_to_unset (data : Doc) (k : String)
    (hk : List.lookup k data = none) :
    OrganizationSettings.get (OrganizationSettings.from_model_data data) k =
      (if k = "custom_properties" then Value.val (JsonVal.arr []) else Value.unset) ∧
      Repository.get (Repository.from_model data) k =
        (if k = "branch_protection_rules" then Value.val (JsonVal.arr []) else Value.unset) ∧
      (OrganizationWebhook.from_model data).get k = Value.unset :=
  ⟨settings_from_model_absent data k hk, repository_from_model_absent data k hk,
    webhook_from_model_absent data k hk⟩

/-- Witness for the amended C6: the `description` field (present on settings
and repositories, defaultless) resolves to unset from the empty document. -/
theorem claim_C6_absent_fields_resolve_to_unset_witness :
    List.lookup "description" ([] : Doc) = none ∧
      (OrganizationSettings.get (OrganizationSettings.from_model_data []) "description" =
        (if "description" = "custom_properties" then Value.val (JsonVal.arr [])
          else Value.unset) ∧
        Repository.get (Repository.from_model []) "description" =
          (if "description" = "branch_protection_rules" then Value.val (JsonVal.arr [])
            else Value.unset) ∧
        (OrganizationWebhook.from_model []).get "description" = Value.unset) :=
  ⟨rfl, claim_C6_absent_fields_resolve_to_unset [] "description" rfl⟩

theorem claim_C7_discussions_validation :
    (OrganizationSettings.validate
        (OrganizationSettings.from_model_data [("has_discussions", JsonVal.bool true)])
        noCustomValidation ⟨"", []⟩).validation_failures =
      [(FailureType.ERROR, discussionRepoMissingMessage)] ∧
      (OrganizationSettings.validate
        (OrganizationSettings.from_model_data [("has_discussions", JsonVal.bool false)])
        noCustomValidation ⟨"", []⟩).validation_failures = [] :=
  ⟨rfl, rfl⟩

theorem addFailures_spec (ctx : ValidationContext) (fs : List (FailureType × String)) :
    addFailures ctx fs = ⟨ctx.template_dir, ctx.validation_failures ++ fs⟩ := by
  induction fs generalizing ctx with
  | nil => cases ctx; simp [addFailures]
  | cons a t ih =>
      show addFailures (ctx.add_failure a.1 a.2) t = _
      rw [ih]
      cases ctx
      simp [ValidationContext.add_failure]

theorem foldl_addFailures_spec (hook : JsonVal → List (FailureType × String))
    (es : List JsonVal) (ctx : ValidationContext) :
    es.foldl (fun c e => addFailures c (hook e)) ctx =
      ⟨ctx.template_dir, ctx.validation_failures ++ es.flatMap hook⟩ := by
  induction es generalizing ctx with
  | nil => cases ctx; simp
  | cons e t ih =>
      rw [List.foldl_cons, addFailures_spec, ih]
      simp

def OrganizationSettings.validateDelta (s : OrganizationSettings) (hooks : OrgValidationHooks)
    (template_dir : String) : List (FailureType × String) :=
  hooks.customScript template_dir ++
    (if is_set_and_present s.description && decide (160 < pyLen s.description) then
      [(FailureType.ERROR, descriptionTooLongMessage)] else []) ++
    (if isPyTrue s.has_discussions && !is_set_and_valid s.discussion_source_repository then
      [(FailureType.ERROR, discussionRepoMissingMessage)] else []) ++
    (if is_set_and_present s.discussion_source_repository &&
        !valueContainsSlash s.discussion_source_repository then
      [(FailureType.ERROR, discussionRepoFormatMessage)] else []) ++
    (if is_set_and_valid s.default_repository_permission &&
        !isAllowedPermissionValue s.default_repository_permission then
      [(FailureType.ERROR, defaultRepositoryPermissionMessage s)] else []) ++
    (if is_set_and_present s.custom_properties then
      (customPropsElems s.custom_properties).flatMap hooks.customPropertyValidate else []) ++
    (if is_set_and_present s.workflows then
      (match s.workflows with
        | Value.val j => hooks.workflowsValidate j
        | Value.unset => []) else [])

theorem run_custom_validation_spec (hooks : OrgValidationHooks) (ctx : ValidationContext) :
    run_custom_validation hooks ctx =
      ⟨ctx.template_dir, ctx.validation_failures ++ hooks.customScript ctx.template_dir⟩ :=
  addFailures_spec ctx _

theorem validateDescriptionRule_spec (s : OrganizationSettings) (ctx : ValidationContext) :
    validateDescriptionRule s ctx =
      ⟨ctx.template_dir, ctx.validation_failures ++
        (if is_set_and_present s.description && decide (160 < pyLen s.description) then
          [(FailureType.ERROR, descriptionTooLongMessage)] else [])⟩ := by
  unfold validateDescriptionRule
  split <;> cases ctx <;> simp [ValidationContext.add_failure]

theorem validateDiscussionsRule_spec (s : OrganizationSettings) (ctx : ValidationContext) :
    validateDiscussionsRule s ctx =
      ⟨ctx.template_dir, ctx.validation_failures ++
        (if isPyTrue s.has_discussions && !is_set_and_valid s.discussion_source_repository then
          [(FailureType.ERROR, discussionRepoMissingMessage)] else [])⟩ := by
  unfold validateDiscussionsRule
  split <;> cases ctx <;> simp [ValidationContext.add_failure]

theorem validateDiscussionRepoFormatRule_spec (s : OrganizationSettings)
    (ctx : ValidationContext) :
    validateDiscussionRepoFormatRule s ctx =
      ⟨ctx.template_dir, ctx.validation_failures ++
        (if is_set_and_present s.discussion_source_repository &&
            !valueContainsSlash s.discussion_source_repository then
          [(FailureType.ERROR, discussionRepoFormatMessage)] else [])⟩ := by
  unfold validateDiscussionRepoFormatRule
  split <;> cases ctx <;> simp [ValidationContext.add_failure]

theorem validateDefaultRepositoryPermissionRule_spec (s : OrganizationSettings)
    (ctx : ValidationContext) :
    validateDefaultRepositoryPermissionRule s ctx =
      ⟨ctx.template_dir, ctx.validation_failures ++
        (if is_set_and_valid s.default_repository_permission &&
            !isAllowedPermissionValue s.default_repository_permission then
          [(FailureType.ERROR, defaultRepositoryPermissionMessage s)] else [])⟩ := by
  unfold validateDefaultRepositoryPermissionRule
  split <;> cases ctx <;> simp [ValidationContext.add_failure]

theorem validateCustomPropertiesChildren_spec (s : OrganizationSettings)
    (hooks : OrgValidationHooks) (ctx : ValidationContext) :
    validateCustomPropertiesChildren s hooks ctx =
      ⟨ctx.template_dir, ctx.validation_failures ++
        (if is_set_and_present s.custom_properties then
          (customPropsElems s.custom_properties).flatMap hooks.customPropertyValidate
        else [])⟩ := by
  unfold validateCustomPropertiesChildren
  split <;> [skip; (cases ctx; simp)]
  exact foldl_addFailures_spec _ _ _

theorem validateWorkflowsChild_spec (s : OrganizationSettings)
    (hooks : OrgValidationHooks) (ctx : ValidationContext) :
    validateWorkflowsChild s hooks ctx =
      ⟨ctx.template_dir, ctx.validation_failures ++
        (if is_set_and_present s.workflows then
          (match s.workflows with
            | Value.val j => hooks.workflowsValidate j
            | Value.unset => []) else [])⟩ := by
  unfold validateWorkflowsChild
  split
  · rename_i hpres
    cases hw : s.workflows with
    | unset => cases ctx; simp_all
    | val j =>
        show addFailures ctx (hooks.workflowsValidate j) = _
        rw [addFailures_spec]
  · rename_i hpres
    cases ctx
    simp [hpres]

theorem validate_eq_append (s : OrganizationSettings) (hooks : OrgValidationHooks)
    (ctx : ValidationContext) :
    OrganizationSettings.validate s hooks ctx =
      ⟨ctx.template_dir,
        ctx.validation_failures ++
          OrganizationSettings.validateDelta s hooks ctx.template_dir⟩ := by
  unfold OrganizationSettings.validate
  rw [run_custom_validation_spec, validateDescriptionRule_spec, validateDiscussionsRule_spec,
    validateDiscussionRepoFormatRule_spec, validateDefaultRepositoryPermissionRule_spec,
    validateCustomPropertiesChildren_spec, validateWorkflowsChild_spec]
  simp [OrganizationSettings.validateDelta, List.append_assoc]

/-- C9: validation is deterministic and side-effects only through
`add_failure` — running `validate` on the same settings entity with the same
custom-validation hooks against two fresh contexts sharing a template directory
yields identical ordered failure lists, and the run appends a delta determined
solely by the entity, the hooks and the template directory. The entity itself
is untouched: the embedding of `validate` is a pure function returning only the
updated context. -/
theorem claim_C9_validation_deterministic (s : OrganizationSettings)
    (hooks : OrgValidationHooks) (ctx1 ctx2 : ValidationContext)
    (hdir : ctx1.template_dir = ctx2.template_dir)
    (h1 : ctx1.validation_failures = []) (h2 : ctx2.validation_failures = []) :
    (OrganizationSettings.validate s hooks ctx1).validation_failures =
      (OrganizationSettings.validate s hooks ctx2).validation_failures ∧
      (OrganizationSettings.validate s hooks ctx1).template_dir = ctx1.template_dir ∧
      (OrganizationSettings.validate s hooks ctx1).validation_failures =
        ctx1.validation_failures ++
          OrganizationSettings.validateDelta s hooks ctx1.template_dir := by
  rw [validate_eq_append, validate_eq_append]
  simp [h1, h2, hdir]

/-- Witness for C9 at a concrete entity and two equal fresh contexts. -/
theorem claim_C9_validation_deterministic_witness :
    (OrganizationSettings.validate settingsExpectedExample noCustomValidation
        ⟨"templates", []⟩).validation_failures =
      (OrganizationSettings.validate settingsExpectedExample noCustomValidation
        ⟨"templates", []⟩).validation_failures ∧
      (OrganizationSettings.validate settingsExpectedExample noCustomValidation
        ⟨"templates", []⟩).template_dir =
        (⟨"templates", []⟩ : ValidationContext).template_dir ∧
      (OrganizationSettings.validate settingsExpectedExample noCustomValidation
        ⟨"templates", []⟩).validation_failures =
        (⟨"templates", []⟩ : ValidationContext).validation_failures ++
          OrganizationSettings.validateDelta settingsExpectedExample noCustomValidation
            (⟨"templates", []⟩ : ValidationContext).template_dir :=
  claim_C9_validation_deterministic settingsExpectedExample noCustomValidation
    ⟨"templates", []⟩ ⟨"templates", []⟩ rfl rfl rfl

/-- C10: `OrganizationWebhook.validate` adds exactly one ERROR failure — the
dummy-secret message naming the webhook's url and secret — when the secret is
set, valid and consists entirely of asterisk characters, and adds no failure
for any other secret value, including the unset sentinel. -/
theorem claim_C10_webhook_dummy_secret (w : OrganizationWebhook)
    (ctx : ValidationContext) :
    (is_set_and_valid w.secret = true → secretIsAllStars w.secret = true →
      (OrganizationWebhook.validate w ctx).validation_failures =
        ctx.validation_failures ++
          [(FailureType.ERROR, OrganizationWebhook.dummySecretMessage w)]) ∧
      (¬(is_set_and_valid w.secret = true ∧ secretIsAllStars w.secret = true) →
        (OrganizationWebhook.validate w ctx).validation_failures =
          ctx.validation_failures) ∧
      (w.secret = Value.unset →
        (OrganizationWebhook.validate w ctx).validation_failures =
          ctx.validation_failures) := by
  refine ⟨?_, ?_, ?_⟩
  · intro hv hs
    unfold OrganizationWebhook.validate
    rw [if_pos (by simp [hv, hs])]
    rfl
  · intro hn
    unfold OrganizationWebhook.validate
    rw [if_neg ?_]
    intro hb
    rw [Bool.and_eq_true] at hb
    exact hn hb
  · intro hu
    unfold OrganizationWebhook.validate
    rw [if_neg (by simp [hu, is_set_and_valid])]

/-- A webhook carrying the dummy all-asterisks secret. -/
def webhookDummySecretExample : OrganizationWebhook := OrganizationWebhook.from_model
  [("url", JsonVal.str "https://example.org/hook"), ("secret", JsonVal.str "***")]

/-- Witness for C10: the dummy-secret webhook gets exactly the one ERROR
failure, and the example webhook with a real secret gets none. -/
theorem claim_C10_webhook_dummy_secret_witness :
    (OrganizationWebhook.validate webhookDummySecretExample ⟨"", []⟩).validation_failures =
      ([] : List (FailureType × String)) ++
        [(FailureType.ERROR, OrganizationWebhook.dummySecretMessage webhookDummySecretExample)] ∧
      (OrganizationWebhook.validate webhookExpectedExample ⟨"", []⟩).validation_failures =
        ([] : List (FailureType × String)) :=
  ⟨(claim_C10_webhook_dummy_secret webhookDummySecretExample ⟨"", []⟩).1 rfl rfl,
   (claim_C10_webhook_dummy_secret webhookExpectedExample ⟨"", []⟩).2.1
      (fun h => Bool.noConfusion h.2)⟩

/-- C8: the webhook model/provider field mapping is symmetric per field — for a
webhook whose `url`, `content_type`, `insecure_ssl` and `secret` are set,
`_to_provider` nests exactly those four values under a `config` sub-object of
the provider payload, and `from_provider` applied to any provider document
carrying that `config` object (and the strictly-required top-level keys)
recovers the same four flat field values, so translating
model → provider → model preserves them. -/
theorem claim_C8_webhook_provider_mapping (w : OrganizationWebhook)
    (u ct is0 ss : JsonVal)
    (hu : w.url = Value.val u) (hct : w.content_type = Value.val ct)
    (his : w.insecure_ssl = Value.val is0) (hss : w.secret = Value.val ss) :
    List.lookup "config" (OrganizationWebhook.to_provider w.to_model_dict) =
      some (JsonVal.obj
        [("url", u), ("content_type", ct), ("insecure_ssl", is0), ("secret", ss)]) ∧
    (∀ (doc : Doc),
      (List.lookup "id" doc).isSome = true →
      (List.lookup "events" doc).isSome = true →
      (List.lookup "active" doc).isSome = true →
      List.lookup "config" doc =
        some (JsonVal.obj
          [("url", u), ("content_type", ct), ("insecure_ssl", is0), ("secret", ss)]) →
      ∃ w', OrganizationWebhook.from_provider doc = some w' ∧
        w'.url = Value.val u ∧ w'.content_type = Value.val ct ∧
        w'.insecure_ssl = Value.val is0 ∧ w'.secret = Value.val ss) := by
  constructor
  · obtain ⟨idv, ev, av, uv, ctv, isv, ssv⟩ := w
    simp only at hu hct his hss
    subst hu hct his hss
    cases ev <;> cases av <;>
      simp [OrganizationWebhook.to_model_dict, OrganizationWebhook.to_provider, keysOf,
        model_fields, OrganizationWebhook.fieldsMeta, plainField, keyField,
        externalOnlyField, OrganizationWebhook.get, is_unset,
        OrganizationWebhook.providerFieldNames, webhookConfigProps, List.lookup]
  · intro doc h1 h2 h3 hcfg
    obtain ⟨idv, hidv⟩ := Option.isSome_iff_exists.mp h1
    obtain ⟨ev, hev⟩ := Option.isSome_iff_exists.mp h2
    obtain ⟨av, hav⟩ := Option.isSome_iff_exists.mp h3
    have hfp : OrganizationWebhook.from_provider doc =
        some ⟨Value.val idv, Value.val ev, Value.val av, Value.val u, Value.val ct,
          Value.val is0, Value.val ss⟩ := by
      unfold OrganizationWebhook.from_provider strictS optionalS2
      rw [hidv, hev, hav, hcfg]
      simp [List.lookup]
    exact ⟨_, hfp, rfl, rfl, rfl, rfl⟩

/-- A webhook with all four config-nested fields set. -/
def webhookFullConfigExample : OrganizationWebhook := OrganizationWebhook.from_model
  [("events", JsonVal.arr [JsonVal.str "push"]), ("active", JsonVal.bool true),
   ("url", JsonVal.str "https://example.org/hook"), ("content_type", JsonVal.str "json"),
   ("insecure_ssl", JsonVal.str "0"), ("secret", JsonVal.str "topsecret")]

/-- Witness for C8 at a concrete fully-configured webhook. -/
theorem claim_C8_webhook_provider_mapping_witness :
    List.lookup "config"
        (OrganizationWebhook.to_provider webhookFullConfigExample.to_model_dict) =
      some (JsonVal.obj
        [("url", JsonVal.str "https://example.org/hook"),
         ("content_type", JsonVal.str "json"),
         ("insecure_ssl", JsonVal.str "0"),
         ("secret", JsonVal.str "topsecret")]) ∧
    (∀ (doc : Doc),
      (List.lookup "id" doc).isSome = true →
      (List.lookup "events" doc).isSome = true →
      (List.lookup "active" doc).isSome = true →
      List.lookup "config" doc =
        some (JsonVal.obj
          [("url", JsonVal.str "https://example.org/hook"),
           ("content_type", JsonVal.str "json"),
           ("insecure_ssl", JsonVal.str "0"),
           ("secret", JsonVal.str "topsecret")]) →
      ∃ w', OrganizationWebhook.from_provider doc = some w' ∧
        w'.url = Value.val (JsonVal.str "https://example.org/hook") ∧
        w'.content_type = Value.val (JsonVal.str "json") ∧
        w'.insecure_ssl = Value.val (JsonVal.str "0") ∧
        w'.secret = Value.val (JsonVal.str "topsecret")) :=
  claim_C8_webhook_provider_mapping webhookFullConfigExample _ _ _ _ rfl rfl rfl rfl
